import Mathlib

/-!
Verification development for the `lookup` command-line tool (src/lookup.py).

The tool is modelled by a shallow embedding: every Python function that the
claims touch becomes a Lean definition of the same name.  Side effects are
made explicit:

* printed lines, HTTP requests, keyring writes, clipboard writes, prompts and
  process exits become values of an event type `Ev`, and each effectful
  function returns the list of events it emits, in order;
* external inputs (the keyring content, HTTP responses keyed by URL, the
  interactive answers, the single keypress) are passed in as oracle
  arguments;
* Python dictionaries holding JSON data are modelled by the inductive `Json`,
  and the `json.dumps` / `json.loads` round trip used by the credential store
  is implemented (`dumps`, `loads`) rather than assumed.

Machine-level caveats of the model are noted next to each definition.
-/

namespace GCLookup

/-- JSON values, the data produced by the Python `json` module. Numeric
literals are kept as their source text, which is enough for this program:
the credential store only ever serialises strings, objects and arrays. -/
inductive Json where
  | null : Json
  | bool : Bool → Json
  | num : String → Json
  | str : String → Json
  | arr : List Json → Json
  | obj : List (String × Json) → Json

/-- Key lookup in a JSON object, the model of Python `dict` access for the
parsed configuration dictionaries. Python dictionaries have unique keys;
`List.lookup` returns the first binding, which agrees with that. On a
non-object this returns `none` (Python `.get` would raise on a non-dict;
the program only calls it on dicts). -/
def Json.lookup (j : Json) (k : String) : Option Json :=
  match j with
  | .obj kvs => List.lookup k kvs
  | _ => none

/-- String value of key `k`, or a default when the key is absent. Models
`d.get(k, default)` for the string-valued fields the program stores. -/
def Json.getStr (j : Json) (k : String) (d : String) : String :=
  match j.lookup k with
  | some (.str s) => s
  | _ => d

/-- String value of key `k` when it is present and a string. Models
`d.get(k)` compared against a string: a missing key gives Python `None`,
which is equal to no string. -/
def Json.getStr? (j : Json) (k : String) : Option String :=
  match j.lookup k with
  | some (.str s) => some s
  | _ => none

/-- Lower-case hexadecimal digit, as Python emits in escapes. -/
def hexDigit (n : Nat) : Char :=
  if n < 10 then Char.ofNat (48 + n) else Char.ofNat (87 + n)

/-- Four hexadecimal digits. -/
def hex4 (n : Nat) : String :=
  String.mk [hexDigit (n / 4096 % 16), hexDigit (n / 256 % 16),
             hexDigit (n / 16 % 16), hexDigit (n % 16)]

/-- Escaping of one character inside a JSON string literal, following
`json.dumps` with its default `ensure_ascii=True`. -/
def escChar (c : Char) : String :=
  if c = Char.ofNat 34 then "\\\""
  else if c = Char.ofNat 92 then "\\\\"
  else if c = Char.ofNat 10 then "\\n"
  else if c = Char.ofNat 13 then "\\r"
  else if c = Char.ofNat 9 then "\\t"
  else if c = Char.ofNat 8 then "\\b"
  else if c = Char.ofNat 12 then "\\f"
  else if c.toNat < 32 then "\\u" ++ hex4 c.toNat
  else if c.toNat < 127 then String.singleton c
  else if c.toNat < 65536 then "\\u" ++ hex4 c.toNat
  else
    "\\u" ++ hex4 (55296 + (c.toNat - 65536) / 1024) ++
    "\\u" ++ hex4 (56320 + (c.toNat - 65536) % 1024)

/-- A JSON string literal for `s`. -/
def quoteStr (s : String) : String :=
  "\"" ++ String.join (s.data.map escChar) ++ "\""

mutual

/-- Serialisation, modelling `json.dumps` with its default separators: items
joined by a comma and a space, keys and values joined by a colon and a space. -/
def dumps : Json → String
  | .null => "null"
  | .bool true => "true"
  | .bool false => "false"
  | .num s => s
  | .str s => quoteStr s
  | .arr xs => "[" ++ String.intercalate ", " (dumpsList xs) ++ "]"
  | .obj kvs => "\x7b" ++ String.intercalate ", " (dumpsObj kvs) ++ "\x7d"

/-- Serialisations of the elements of an array. -/
def dumpsList : List Json → List String
  | [] => []
  | x :: xs => dumps x :: dumpsList xs

/-- Serialisations of the pairs of an object. -/
def dumpsObj : List (String × Json) → List String
  | [] => []
  | (k, v) :: kvs => (quoteStr k ++ ": " ++ dumps v) :: dumpsObj kvs

end

/-- JSON whitespace. -/
def isWs (c : Char) : Bool :=
  c = ' ' || c = Char.ofNat 9 || c = Char.ofNat 10 || c = Char.ofNat 13

/-- Drop leading JSON whitespace. -/
def skipWs : List Char → List Char
  | [] => []
  | c :: cs => if isWs c then skipWs cs else c :: cs

/-- Value of a hexadecimal digit character. -/
def hexVal? (c : Char) : Option Nat :=
  if 48 ≤ c.toNat ∧ c.toNat ≤ 57 then some (c.toNat - 48)
  else if 97 ≤ c.toNat ∧ c.toNat ≤ 102 then some (c.toNat - 87)
  else if 65 ≤ c.toNat ∧ c.toNat ≤ 70 then some (c.toNat - 55)
  else none

/-- Parse the body of a JSON string literal (the opening quote already
consumed), returning the decoded string and the rest of the input.
Each `\uXXXX` escape becomes the character with that code point; the
surrogate-pair recombination Python performs is not modelled, which is
irrelevant to the configuration data in the claims. -/
def parseStringBody (fuel : Nat) (cs : List Char) (acc : List Char) :
    Option (String × List Char) :=
  match fuel with
  | 0 => none
  | Nat.succ fuel =>
    match cs with
    | [] => none
    | c :: rest =>
      if c = Char.ofNat 34 then some (String.mk acc.reverse, rest)
      else if c = Char.ofNat 92 then
        match rest with
        | [] => none
        | e :: rest2 =>
          if e = Char.ofNat 34 then parseStringBody fuel rest2 (Char.ofNat 34 :: acc)
          else if e = Char.ofNat 92 then parseStringBody fuel rest2 (Char.ofNat 92 :: acc)
          else if e = '/' then parseStringBody fuel rest2 ('/' :: acc)
          else if e = 'b' then parseStringBody fuel rest2 (Char.ofNat 8 :: acc)
          else if e = 'f' then parseStringBody fuel rest2 (Char.ofNat 12 :: acc)
          else if e = 'n' then parseStringBody fuel rest2 (Char.ofNat 10 :: acc)
          else if e = 'r' then parseStringBody fuel rest2 (Char.ofNat 13 :: acc)
          else if e = 't' then parseStringBody fuel rest2 (Char.ofNat 9 :: acc)
          else if e = 'u' then
            match rest2 with
            | a :: b :: c2 :: d :: rest3 =>
              match hexVal? a, hexVal? b, hexVal? c2, hexVal? d with
              | some x, some y, some z, some w =>
                parseStringBody fuel rest3
                  (Char.ofNat (4096 * x + 256 * y + 16 * z + w) :: acc)
              | _, _, _, _ => none
            | _ => none
          else none
      else parseStringBody fuel rest (c :: acc)

/-- Split off a maximal run of decimal digits. -/
def takeDigits : List Char → List Char × List Char
  | [] => ([], [])
  | c :: cs =>
    if c.isDigit then
      let p := takeDigits cs
      (c :: p.1, p.2)
    else ([], c :: cs)

/-- Optional fractional part of a JSON number. -/
def parseFrac : List Char → Option (List Char × List Char)
  | '.' :: rest =>
    let p := takeDigits rest
    if p.1.isEmpty then none else some ('.' :: p.1, p.2)
  | cs => some ([], cs)

/-- Optional exponent part of a JSON number. -/
def parseExp : List Char → Option (List Char × List Char)
  | [] => some ([], [])
  | c :: rest =>
    if c = 'e' ∨ c = 'E' then
      let sr : List Char × List Char :=
        match rest with
        | s :: r2 => if s = '+' ∨ s = '-' then ([s], r2) else ([], rest)
        | [] => ([], [])
      let p := takeDigits sr.2
      if p.1.isEmpty then none else some (c :: (sr.1 ++ p.1), p.2)
    else some ([], c :: rest)

/-- Parse a JSON number (grammar `-?(0|[1-9][0-9]*)(.[0-9]+)?([eE][+-]?[0-9]+)?`),
returning its source text. -/
def parseNumber (cs : List Char) : Option (String × List Char) :=
  let sr : List Char × List Char :=
    match cs with
    | '-' :: rest => (['-'], rest)
    | _ => ([], cs)
  let ip := takeDigits sr.2
  if ip.1.isEmpty then none
  else if ip.1.length > 1 ∧ ip.1.head? = some '0' then none
  else
    match parseFrac ip.2 with
    | none => none
    | some fp =>
      match parseExp fp.2 with
      | none => none
      | some ep => some (String.mk (sr.1 ++ ip.1 ++ fp.1 ++ ep.1), ep.2)

mutual

/-- Parse one JSON value, the model of `json.loads` at work. `fuel` bounds
the recursion; `loads` supplies enough for any input of the given length. -/
def parseVal : Nat → List Char → Option (Json × List Char)
  | 0, _ => none
  | Nat.succ fuel, cs =>
    match skipWs cs with
    | [] => none
    | c :: rest =>
      if c = Char.ofNat 34 then
        match parseStringBody (rest.length + 1) rest [] with
        | some (s, r) => some (Json.str s, r)
        | none => none
      else if c = '[' then
        match skipWs rest with
        | ']' :: r => some (Json.arr [], r)
        | cs2 =>
          match parseVal fuel cs2 with
          | some (v, r) => parseArrRest fuel [v] r
          | none => none
      else if c = Char.ofNat 123 then
        match skipWs rest with
        | c2 :: r =>
          if c2 = Char.ofNat 125 then some (Json.obj [], r)
          else
            match parsePair fuel (c2 :: r) with
            | some (kv, r2) => parseObjRest fuel [kv] r2
            | none => none
        | [] => none
      else if c = 'n' then
        match rest with
        | 'u' :: 'l' :: 'l' :: r => some (Json.null, r)
        | _ => none
      else if c = 't' then
        match rest with
        | 'r' :: 'u' :: 'e' :: r => some (Json.bool true, r)
        | _ => none
      else if c = 'f' then
        match rest with
        | 'a' :: 'l' :: 's' :: 'e' :: r => some (Json.bool false, r)
        | _ => none
      else if c = '-' ∨ c.isDigit then
        match parseNumber (c :: rest) with
        | some (s, r) => some (Json.num s, r)
        | none => none
      else none

/-- Parse the remaining elements of an array, positioned after a value. -/
def parseArrRest : Nat → List Json → List Char → Option (Json × List Char)
  | 0, _, _ => none
  | Nat.succ fuel, acc, cs =>
    match skipWs cs with
    | ']' :: r => some (Json.arr acc.reverse, r)
    | ',' :: r =>
      match parseVal fuel r with
      | some (v, r2) => parseArrRest fuel (v :: acc) r2
      | none => none
    | _ => none

/-- Parse one `"key": value` pair of an object. -/
def parsePair : Nat → List Char → Option ((String × Json) × List Char)
  | 0, _ => none
  | Nat.succ fuel, cs =>
    match skipWs cs with
    | c :: rest =>
      if c = Char.ofNat 34 then
        match parseStringBody (rest.length + 1) rest [] with
        | some (k, r) =>
          match skipWs r with
          | ':' :: r2 =>
            match parseVal fuel r2 with
            | some (v, r3) => some ((k, v), r3)
            | none => none
          | _ => none
        | none => none
      else none
    | [] => none

/-- Parse the remaining pairs of an object, positioned after a pair. -/
def parseObjRest : Nat → List (String × Json) → List Char →
    Option (Json × List Char)
  | 0, _, _ => none
  | Nat.succ fuel, acc, cs =>
    match skipWs cs with
    | c :: r =>
      if c = Char.ofNat 125 then some (Json.obj acc.reverse, r)
      else if c = ',' then
        match parsePair fuel r with
        | some (kv, r2) => parseObjRest fuel (kv :: acc) r2
        | none => none
      else none
    | [] => none

end

/-- Parsing, modelling `json.loads`: a complete JSON document, allowing
surrounding whitespace; `none` models a raised `JSONDecodeError`. -/
def loads (s : String) : Option Json :=
  match parseVal (2 * s.length + 16) s.data with
  | some (v, r) => if skipWs r = [] then some v else none
  | none => none

/-- Observable events of one run, in order: printed lines, HTTP requests
(identified by URL; the Authorization and content headers and POST bodies of
the source carry no information the claims mention beyond the token),
keyring writes, interactive prompts, the single keypress read, clipboard
writes, the quarter-second pauses, process exits and uncaught exceptions. -/
inductive Ev where
  | print (line : String)
  | httpGet (url : String)
  | httpPost (url : String)
  | keyringSet (value : String)
  | promptList (choices : List String)
  | readKey
  | clipboard (text : String)
  | sleep
  | exitCode (code : Nat)
  | raise
deriving DecidableEq, Repr

/-- Default Genesys Cloud region (src/lookup.py:17). -/
def DEFAULT_REGION : String := "usw2.pure.cloud"

/-- Query type constant (src/lookup.py:20). -/
def QUERY_USERID : String := "User by ID"

/-- Query type constant (src/lookup.py:21). -/
def QUERY_USERNAME : String := "User by Name"

/-- Query type constant (src/lookup.py:22). -/
def QUERY_QUEUEID : String := "Queue by ID"

/-- Query type constant (src/lookup.py:23). -/
def QUERY_QUEUENAME : String := "Queue by Name"

/-- Query type constant (src/lookup.py:24). -/
def QUERY_INTERACTION : String := "Interaction by ID"

/-- Lower-casing of one ASCII character, the action of Python str.lower on
the names this tool stores (the non-ASCII folds of Python never matter to
the claims). -/
def lowerChar (c : Char) : Char :=
  if 65 ≤ c.toNat ∧ c.toNat ≤ 90 then Char.ofNat (c.toNat + 32) else c

/-- Models Python str.lower. -/
def pyLower (s : String) : String := String.mk (s.data.map lowerChar)

/-- Whitespace removed by Python str.strip with no arguments. -/
def pySpace (c : Char) : Bool :=
  c = ' ' || c = Char.ofNat 9 || c = Char.ofNat 10 || c = Char.ofNat 13 ||
  c = Char.ofNat 11 || c = Char.ofNat 12

/-- Models Python str.strip with no arguments. -/
def pyStrip (s : String) : String :=
  String.mk (((s.data.dropWhile pySpace).reverse.dropWhile pySpace).reverse)

/-- Rendering of a Python value inside an f-string: `None` for a missing
key, the string itself for a string, Python booleans capitalised; compound
values fall back to their JSON text, an approximation of the Python repr
that no claim exercises. -/
def pyShow : Option Json → String
  | none => "None"
  | some (.str s) => s
  | some .null => "None"
  | some (.bool true) => "True"
  | some (.bool false) => "False"
  | some j => dumps j

/-- Models `f-string` rendering of `d.get(k, default)` with a string default. -/
def Json.getShow (j : Json) (k : String) (d : String) : String :=
  match j.lookup k with
  | some v => pyShow (some v)
  | none => d

/-- Models `d.get(k, [])` used for iteration: the elements when the value is
an array, `[]` when the key is absent. Iterating a non-array value is not
modelled; the API returns arrays for the keys so accessed. -/
def jsonList : Option Json → List Json
  | some (.arr xs) => xs
  | _ => []

/-- Models `d.get(k, dict()).items()`: the pairs when the value is an object. -/
def jsonPairs : Option Json → List (String × Json)
  | some (.obj kvs) => kvs
  | _ => []

/-- Function `get_stored_configs` (src/lookup.py:27). The keyring is the
oracle `stored`: `none` when `keyring.get_password` yields nothing (no entry
stored, the unavailable-store reading of the spec), `some s` for a stored
value; the Python falsiness test on the string makes `""` equivalent to
`none`. Returns the printed lines and the configuration list. The Python
error line interpolates the exception text, which the model fixes to a
constant. -/
def get_stored_configs (stored : Option String) : List String × List Json :=
  match stored with
  | none => ([], [])
  | some s =>
    if s = "" then ([], [])
    else
      match loads s with
      | none => (["Error parsing stored config: invalid JSON"], [])
      | some (.arr items) => ([], items)
      | some _ => ([], [])

/-- Function `store_configs` (src/lookup.py:40): the value written to the
keyring entry. -/
def store_configs (configs : List Json) : String := dumps (Json.arr configs)

/-- Test of the default-selection loop (src/lookup.py:53): the entry name,
defaulted to the empty string, lower-cased, compared with "default". -/
def isDefaultName (c : Json) : Bool := pyLower (c.getStr "name" "") == "default"

/-- Function `choose_default_config` (src/lookup.py:46). `chooseOracle`
supplies the answer of `inquirer.prompt` to the presented choices. Returns
the emitted events and the chosen configuration. The `cfg["name"]`
subscripts of the source are modelled by `getStr _ "name" ""`, exact for the
configurations the program writes (which always carry a string name). -/
def choose_default_config (configs : List Json)
    (chooseOracle : List String → String) : List Ev × Option Json :=
  match configs.find? isDefaultName with
  | some c => ([], some c)
  | none =>
    if configs.length > 1 then
      let choices := configs.map (fun c => c.getStr "name" "")
      let selected := chooseOracle choices
      ([.promptList choices],
       configs.find? (fun c => c.getStr? "name" == some selected))
    else
      match configs with
      | c :: _ => ([], some c)
      | [] => ([], none)

/-- Configuration dictionary literal built by the setup and edit flows
(src/lookup.py:84 and 120). -/
def mkConfig (name client_id client_secret region : String) : Json :=
  .obj [("name", .str name), ("CLIENT_ID", .str client_id),
        ("CLIENT_SECRET", .str client_secret),
        ("GENESYS_CLOUD_REGION", .str region)]

/-- Raw `input()` answers consumed by the setup and edit flows, in the order
the program asks for them. -/
structure Inputs where
  name : String
  region : String
  client_id : String
  client_secret : String

/-- Models the Python idiom `raw.strip() or d`: the stripped value when
non-empty, else the default. -/
def strippedOr (raw : String) (d : String) : String :=
  if pyStrip raw = "" then d else pyStrip raw

/-- Result of a configuration flow: its events, the value returned to the
caller, the keyring content afterwards, and whether an `exit()` call
terminated the process inside the flow. -/
structure FlowResult where
  events : List Ev
  ret : Option Json
  stored : Option String
  exited : Bool

/-- Function `setup_config` (src/lookup.py:68). -/
def setup_config (stored : Option String) (inp : Inputs)
    (chooseOracle : List String → String) : FlowResult :=
  let r := get_stored_configs stored
  let evs0 := r.1.map Ev.print
  if r.2.isEmpty then
    let intro := Ev.print "No configuration found in keychain. Let\x27s set up a new configuration."
    let name := strippedOr inp.name "default"
    let region := strippedOr inp.region DEFAULT_REGION
    let client_id := pyStrip inp.client_id
    let client_secret := pyStrip inp.client_secret
    if client_id = "" ∨ client_secret = "" then
      ⟨evs0 ++ [intro, .print "CLIENT_ID and CLIENT_SECRET cannot be empty.",
                .exitCode 1], none, stored, true⟩
    else
      let config := mkConfig name client_id client_secret region
      let newStored := store_configs (r.2 ++ [config])
      ⟨evs0 ++ [intro, .keyringSet newStored], some config, some newStored, false⟩
  else
    let p := choose_default_config r.2 chooseOracle
    ⟨evs0 ++ p.1, p.2, stored, false⟩

/-- Function `prompt_config_data` without an existing configuration
(src/lookup.py:97, creation branch): a fresh configuration from the prompts,
or `none` after the empty-credential `exit(1)`. -/
def prompt_config_data_new (inp : Inputs) : List Ev × Option Json :=
  let name := strippedOr inp.name "default"
  let region := strippedOr inp.region DEFAULT_REGION
  let client_id := pyStrip inp.client_id
  let client_secret := pyStrip inp.client_secret
  if client_id = "" ∨ client_secret = "" then
    ([.print "Creating a new configuration:",
      .print "CLIENT_ID and CLIENT_SECRET cannot be empty.", .exitCode 1], none)
  else
    ([.print "Creating a new configuration:"],
     some (mkConfig name client_id client_secret region))

/-- Models `input().strip() or existing.get(k)`: keep the old value on a
blank answer. Field values are strings or absent in every configuration the
program writes; a stored non-string value is not modelled. -/
def keepOr (raw : String) (old : Option String) : Option String :=
  if pyStrip raw = "" then old else some (pyStrip raw)

/-- Json value of an optional string, `none` becoming JSON null as
`json.dumps` renders Python `None`. -/
def jsonOfOpt : Option String → Json
  | none => .null
  | some s => .str s

/-- Function `prompt_config_data` with an existing configuration
(src/lookup.py:97, edit branch). -/
def prompt_config_data_edit (existing : Json) (inp : Inputs) :
    List Ev × Option Json :=
  let intro := Ev.print "Editing configuration. Leave field blank to keep the current value."
  let name := keepOr inp.name (existing.getStr? "name")
  let region := keepOr inp.region (some (existing.getStr "GENESYS_CLOUD_REGION" DEFAULT_REGION))
  let client_id := keepOr inp.client_id (existing.getStr? "CLIENT_ID")
  let client_secret := keepOr inp.client_secret (existing.getStr? "CLIENT_SECRET")
  if client_id.getD "" = "" ∨ client_secret.getD "" = "" then
    ([intro, .print "CLIENT_ID and CLIENT_SECRET cannot be empty.", .exitCode 1], none)
  else
    ([intro],
     some (.obj [("name", jsonOfOpt name), ("CLIENT_ID", jsonOfOpt client_id),
                 ("CLIENT_SECRET", jsonOfOpt client_secret),
                 ("GENESYS_CLOUD_REGION", jsonOfOpt region)]))

/-- Function `create_new_config` (src/lookup.py:127). -/
def create_new_config (stored : Option String) (inp : Inputs) : FlowResult :=
  let p := prompt_config_data_new inp
  match p.2 with
  | none => ⟨p.1, none, stored, true⟩
  | some config =>
    let r := get_stored_configs stored
    let newStored := store_configs (r.2 ++ [config])
    ⟨p.1 ++ r.1.map Ev.print ++ [.keyringSet newStored, .print "New configuration added."],
     some config, some newStored, false⟩

/-- Function `edit_config` (src/lookup.py:136). `sel` answers the selection
prompt. -/
def edit_config (stored : Option String) (sel : List String → String)
    (inp : Inputs) : FlowResult :=
  let r := get_stored_configs stored
  let evs0 := r.1.map Ev.print
  let configs := r.2
  if configs.isEmpty then
    ⟨evs0 ++ [.print "No configurations exist. Please create one first."], none, stored, false⟩
  else
    let choices := configs.map (fun c => c.getStr "name" "")
    let selected := sel choices
    match configs.findIdx? (fun c => c.getStr? "name" == some selected) with
    | some i =>
      match configs[i]? with
      | some cfg =>
        let p := prompt_config_data_edit cfg inp
        match p.2 with
        | none => ⟨evs0 ++ [.promptList choices] ++ p.1, none, stored, true⟩
        | some updated =>
          let newStored := store_configs (configs.set i updated)
          ⟨evs0 ++ [.promptList choices] ++ p.1 ++
             [.keyringSet newStored, .print "Configuration updated."],
           some updated, some newStored, false⟩
      | none => ⟨evs0 ++ [.promptList choices], none, stored, false⟩
    | none => ⟨evs0 ++ [.promptList choices], none, stored, false⟩

/-- Function `get_access_token` (src/lookup.py:155). `httpPost` maps the URL
of the single POST to its outcome: `Except.error ()` is a non-2xx status on
which `raise_for_status` raises, `Except.ok body` a 2xx JSON body. Returns
the events and either the propagated error or `body.get("access_token")`
(`none` modelling the Python `None` of an absent field). -/
def get_access_token (config : Json) (httpPost : String → Except Unit Json) :
    List Ev × Except Unit (Option Json) :=
  let region := config.getStr "GENESYS_CLOUD_REGION" DEFAULT_REGION
  let url := s!"https://login.{region}/oauth/token"
  ([.httpPost url], (httpPost url).map (fun body => body.lookup "access_token"))

/-- Function `fetch_user_details` (src/lookup.py:170): one GET to the users
endpoint; the bearer token rides in a header outside the observable trace. -/
def fetch_user_details (http : String → Except Unit Json)
    (user_id region : String) : List Ev × Except Unit Json :=
  let url := s!"https://api.{region}/api/v2/users/{user_id}"
  ([.httpGet url], http url)

/-- Function `search_user_details` (src/lookup.py:179): one POST to the user
search endpoint with a CONTAINS query of page size 50 in the body. -/
def search_user_details (httpPost : String → Except Unit Json)
    (search_text region : String) : List Ev × Except Unit Json :=
  let url := s!"https://api.{region}/api/v2/users/search"
  ([.httpPost url], httpPost url)

/-- Function `fetch_interaction` (src/lookup.py:201). -/
def fetch_interaction (http : String → Except Unit Json)
    (conversation_id region : String) : List Ev × Except Unit Json :=
  let url := s!"https://api.{region}/api/v2/conversations/{conversation_id}"
  ([.httpGet url], http url)

/-- Function `fetch_queue_details` (src/lookup.py:211). -/
def fetch_queue_details (http : String → Except Unit Json)
    (queue_id region : String) : List Ev × Except Unit Json :=
  let url := s!"https://api.{region}/api/v2/routing/queues/{queue_id}"
  ([.httpGet url], http url)

/-- Page size of the queue search, a local constant of the source hoisted
to module level (src/lookup.py:222). -/
def PAGE_SIZE : Nat := 100

/-- Function `search_queue_details` (src/lookup.py:220). -/
def search_queue_details (http : String → Except Unit Json)
    (search_text region : String) : List Ev × Except Unit Json :=
  let url := s!"https://api.{region}/api/v2/routing/queues?pageSize={PAGE_SIZE}&name=*{search_text}*"
  ([.httpGet url], http url)

/-- Function `process_interaction` (src/lookup.py:254). `key` is the string
`readchar.readchar()` returns. The Bool of the result records an uncaught
raise, which aborts the rest of the dispatch. -/
def process_interaction (http : String → Except Unit Json) (key : String)
    (interaction_id region : String) : List Ev × Bool :=
  let f := fetch_interaction http interaction_id region
  match f.2 with
  | .error _ => (f.1 ++ [.raise], true)
  | .ok d =>
    let border := "#######################################################"
    let startLine := "Start Time: " ++ d.getShow "startTime" "??"
    let participantLines := (jsonList (d.lookup "participants")).flatMap (fun p =>
      Ev.print (p.getShow "purpose" "UNK" ++ " â€” " ++ p.getShow "name" "UNK") ::
      (jsonPairs (p.lookup "attributes")).map (fun kv =>
        Ev.print (kv.1 ++ ": " ++ pyShow (some kv.2))))
    let urlCopy := s!"https://apps.{region}/directory/#/analytics/interactions/{interaction_id}/admin/details"
    (f.1 ++ [.print border, .print ("#  Interaction " ++ interaction_id), .print border,
             .print startLine] ++ participantLines ++
       [.print "Copy Conversation URL? (Y/n)", .print "", .readKey] ++
       (if key ≠ "n" then [.clipboard urlCopy] else []),
     false)

/-- Function `process_users` (src/lookup.py:273): one fetch per id; an HTTP
error is caught and reported inline and the loop continues. -/
def process_users (http : String → Except Unit Json) (user_ids : List String)
    (region : String) : List Ev × Bool :=
  (Ev.print "Getting User(s)" :: user_ids.flatMap (fun user_id =>
    let f := fetch_user_details http user_id region
    f.1 ++ (match f.2 with
      | .ok u => [Ev.print (pyShow (u.lookup "name") ++ " (" ++ pyShow (u.lookup "email") ++ ")")]
      | .error _ => [Ev.print ("Failed to fetch details for user " ++ user_id)]) ++ [.sleep]),
   false)

/-- Function `process_queues` (src/lookup.py:285). -/
def process_queues (http : String → Except Unit Json) (queue_ids : List String)
    (region : String) : List Ev × Bool :=
  (Ev.print "Getting Queue(s)" :: queue_ids.flatMap (fun queue_id =>
    let f := fetch_queue_details http queue_id region
    f.1 ++ (match f.2 with
      | .ok q => [Ev.print (pyShow (q.lookup "name") ++ " : " ++ queue_id)]
      | .error _ => [Ev.print ("Failed to fetch details for queue " ++ queue_id)]) ++ [.sleep]),
   false)

/-- Function `search_users` (src/lookup.py:297): the search error is not
caught, so a failure raises after the header line. -/
def search_users (httpPost : String → Except Unit Json)
    (search_text region : String) : List Ev × Bool :=
  let s := search_user_details httpPost search_text region
  match s.2 with
  | .error _ => (Ev.print "Finding User(s)" :: s.1 ++ [.raise], true)
  | .ok d =>
    (Ev.print "Finding User(s)" :: s.1 ++
       (jsonList (d.lookup "results")).map (fun u =>
         Ev.print (pyShow (u.lookup "name") ++ ", " ++ pyShow (u.lookup "email") ++
                   ", " ++ pyShow (u.lookup "id"))),
     false)

/-- Function `search_queues` (src/lookup.py:305). -/
def search_queues (http : String → Except Unit Json)
    (search_text region : String) : List Ev × Bool :=
  let s := search_queue_details http search_text region
  match s.2 with
  | .error _ => (Ev.print "Finding Queue(s)" :: s.1 ++ [.raise], true)
  | .ok d =>
    (Ev.print "Finding Queue(s)" :: s.1 ++
       (jsonList (d.lookup "entities")).map (fun q =>
         Ev.print (pyShow (q.lookup "name") ++ ", " ++ pyShow (q.lookup "id"))),
     false)

/-- Result record of `argparse` (src/lookup.py:314): each flag either absent
(`none`, the argparse default) or carrying its parsed value. -/
structure Args where
  org : Option String := none
  new_config : Bool := false
  edit_config : Bool := false
  user_id : Option (List String) := none
  user_name : Option String := none
  queue_id : Option (List String) := none
  queue_name : Option String := none
  interaction : Option String := none

/-- Python truthiness of an optional string (`None` and `""` are falsy). -/
def truthyS : Option String → Bool
  | none => false
  | some s => s != ""

/-- Python truthiness of an optional list (`None` and `[]` are falsy). -/
def truthyL : Option (List String) → Bool
  | none => false
  | some l => !l.isEmpty

/-- Choices of the interactive selector (src/lookup.py:232). -/
def search_types : List String :=
  [QUERY_USERID, QUERY_USERNAME, QUERY_QUEUEID, QUERY_QUEUENAME, QUERY_INTERACTION]

/-- Function `prompt_user_for_query` (src/lookup.py:230). `kindSel` is the
menu answer (`none`: the prompt was cancelled, on which the program exits
with status 0); `searchRaw` the free-text answer. Returns events and the
updated argument record (`none` after the exit). The `query_map` dispatch
with its test for `"id"` inside the field name is written out per kind:
`user_id` and `queue_id` are exactly the field names containing `"id"`, so
those two wrap the value in a one-element list, the others store the bare
string. -/
def prompt_user_for_query (args : Args) (kindSel : Option String)
    (searchRaw : String) : List Ev × Option Args :=
  match kindSel with
  | none => ([.promptList search_types, .exitCode 0], none)
  | some query_type =>
    let search_text := pyStrip searchRaw
    let args2 :=
      if query_type = QUERY_USERID then { args with user_id := some [search_text] }
      else if query_type = QUERY_USERNAME then { args with user_name := some search_text }
      else if query_type = QUERY_QUEUEID then { args with queue_id := some [search_text] }
      else if query_type = QUERY_QUEUENAME then { args with queue_name := some search_text }
      else if query_type = QUERY_INTERACTION then { args with interaction := some search_text }
      else args
    ([.promptList search_types], some args2)

/-- External world of one invocation: keyring content and oracles for every
network response and interactive input. -/
structure World where
  stored : Option String
  http : String → Except Unit Json
  httpPost : String → Except Unit Json
  chooseConfig : List String → String
  setupInputs : Inputs
  kindSel : Option String
  searchRaw : String
  key : String

/-- Runs dispatch blocks in order, stopping after a block whose call raised
(the remaining calls of `main` never run). -/
def runBlocks : List (List Ev × Bool) → List Ev
  | [] => []
  | (evs, aborted) :: rest => if aborted then evs else evs ++ runBlocks rest

/-- Tail of `main` after a configuration is resolved (src/lookup.py:342):
token exchange, the optional interactive query, and the dispatch in its
fixed order. -/
def mainRest (args : Args) (w : World) (config : Json) : List Ev :=
  let t := get_access_token config w.httpPost
  match t.2 with
  | .error _ => t.1 ++ [.raise]
  | .ok _access_token =>
    let region := config.getStr "GENESYS_CLOUD_REGION" DEFAULT_REGION
    let anyGiven := truthyS args.queue_name || truthyS args.user_name ||
                    truthyL args.queue_id || truthyL args.user_id ||
                    truthyS args.interaction
    let p := if anyGiven then ([], some args)
             else prompt_user_for_query args w.kindSel w.searchRaw
    match p.2 with
    | none => t.1 ++ p.1
    | some a =>
      t.1 ++ p.1 ++ runBlocks (
        (if truthyS a.interaction then
           [process_interaction w.http w.key (a.interaction.getD "") region] else []) ++
        (if truthyL a.user_id then
           [process_users w.http (a.user_id.getD []) region] else []) ++
        (if truthyL a.queue_id then
           [process_queues w.http (a.queue_id.getD []) region] else []) ++
        (if truthyS a.user_name then
           [search_users w.httpPost (a.user_name.getD "") region] else []) ++
        (if truthyS a.queue_name then
           [search_queues w.http (a.queue_name.getD "") region] else []))

/-- Function `main` (src/lookup.py:313) as the event trace of one
invocation. Calls of `sys.exit` and `exit` become `exitCode` events ending
the trace; an uncaught exception becomes a final `raise`. A `None`
configuration reaching `get_access_token` raises an `AttributeError`, hence
the `raise` in that branch. -/
def main (args : Args) (w : World) : List Ev :=
  if args.new_config then
    let c := create_new_config w.stored w.setupInputs
    if c.exited then c.events else c.events ++ [.exitCode 0]
  else if args.edit_config then
    let c := edit_config w.stored w.chooseConfig w.setupInputs
    if c.exited then c.events else c.events ++ [.exitCode 0]
  else
    let r := get_stored_configs w.stored
    let evs0 := r.1.map Ev.print
    if truthyS args.org then
      let o := args.org.getD ""
      match r.2.find? (fun c => c.getStr? "name" == some o) with
      | none => evs0 ++ [.print ("Configuration \x27" ++ o ++ "\x27 not found."), .exitCode 1]
      | some config => evs0 ++ mainRest args w config
    else
      let sr := setup_config w.stored w.setupInputs w.chooseConfig
      if sr.exited then evs0 ++ sr.events
      else
        match sr.ret with
        | none => evs0 ++ sr.events ++ [.raise]
        | some config => evs0 ++ sr.events ++ mainRest args w config

/-- Event classifier: an interactive list prompt. -/
def isPromptEv : Ev → Bool
  | .promptList _ => true
  | _ => false

/-- Event classifier: a network request of either method. -/
def isNetworkEv : Ev → Bool
  | .httpGet _ => true
  | .httpPost _ => true
  | _ => false

/-- Event classifier: a printed line. -/
def isPrintEv : Ev → Bool
  | .print _ => true
  | _ => false

/-- Event classifier: a clipboard write. -/
def isClipboardEv : Ev → Bool
  | .clipboard _ => true
  | _ => false

section Theorems

/-- C1: for every stored configuration list, `choose_default_config` returns
the first entry named "default" case-insensitively when one exists (no
prompt); returns the sole entry of a singleton list (no prompt); returns
none on the empty list (no prompt); and with two or more entries none of
which is named "default" it shows exactly one interactive choice over the
stored names and returns the chosen entry. -/
theorem choose_default_config_correct (configs : List Json)
    (oracle : List String → String) :
    (∀ c, configs.find? isDefaultName = some c →
        choose_default_config configs oracle = ([], some c))
    ∧ (∀ c, configs = [c] → choose_default_config configs oracle = ([], some c))
    ∧ (configs = [] → choose_default_config configs oracle = ([], none))
    ∧ (1 < configs.length → configs.find? isDefaultName = none →
        (choose_default_config configs oracle).1 =
          [Ev.promptList (configs.map (fun c => c.getStr "name" ""))]
        ∧ ∀ c ∈ configs,
            c.getStr? "name" = some (oracle (configs.map (fun c => c.getStr "name" ""))) →
            ∃ c2, (choose_default_config configs oracle).2 = some c2 ∧
              c2.getStr? "name" =
                some (oracle (configs.map (fun c => c.getStr "name" "")))) := by
  refine ⟨?_, ?_, ?_, ?_⟩
  · intro c h
    simp [choose_default_config, h]
  · intro c h
    subst h
    by_cases hd : isDefaultName c
    · simp [choose_default_config, List.find?_cons, hd]
    · simp only [Bool.not_eq_true] at hd
      simp [choose_default_config, List.find?_cons, hd]
  · intro h
    subst h
    rfl
  · intro hlen hnone
    constructor
    · simp [choose_default_config, hnone, hlen]
    · intro c hc hname
      have hsome : (configs.find?
          (fun c => c.getStr? "name" ==
            some (oracle (configs.map (fun c => c.getStr "name" ""))))).isSome := by
        rw [List.find?_isSome]
        exact ⟨c, hc, beq_iff_eq.mpr hname⟩
      obtain ⟨c2, hc2⟩ := Option.isSome_iff_exists.mp hsome
      refine ⟨c2, ?_, ?_⟩
      · simp [choose_default_config, hnone, hlen, hc2]
      · have hp := @List.find?_some Json
          (fun c => c.getStr? "name" ==
            some (oracle (configs.map (fun c => c.getStr "name" "")))) c2 configs hc2
        exact beq_iff_eq.mp hp

/-- Witness for C1, exercising the interactive branch on two concrete
configurations neither of which is named "default". -/
theorem choose_default_config_correct_witness :
    (choose_default_config [mkConfig "alpha" "i" "s" "r", mkConfig "beta" "i" "s" "r"]
        (fun _ => "beta")).1 = [Ev.promptList ["alpha", "beta"]]
    ∧ ∃ c2, (choose_default_config [mkConfig "alpha" "i" "s" "r", mkConfig "beta" "i" "s" "r"]
        (fun _ => "beta")).2 = some c2 ∧ c2.getStr? "name" = some "beta" := by
  have h := (choose_default_config_correct
      [mkConfig "alpha" "i" "s" "r", mkConfig "beta" "i" "s" "r"]
      (fun _ => "beta")).2.2.2 (by decide) (by rfl)
  exact ⟨h.1, h.2 (mkConfig "beta" "i" "s" "r")
    (List.Mem.tail _ (List.Mem.head _)) (by rfl)⟩

/-- C2: a persistence failure when reading stored configurations — the
keyring yielding nothing (secret store unavailable) as well as a corrupt,
unparseable stored JSON value — is reported (the parse error inline, and
the setup flow announcing that no configuration was found) and treated as
"no configurations exist": `setup_config` enters the configuration-creation
flow, which never raises, and with non-empty credentials persists a freshly
created configuration. -/
theorem persistence_failure_enters_setup (stored : Option String) (inp : Inputs)
    (oracle : List String → String)
    (hfail : stored = none ∨ ∃ s, stored = some s ∧ s ≠ "" ∧ loads s = none) :
    (get_stored_configs stored).2 = []
    ∧ (∀ s, stored = some s →
        (get_stored_configs stored).1 = ["Error parsing stored config: invalid JSON"])
    ∧ Ev.print "No configuration found in keychain. Let\x27s set up a new configuration."
        ∈ (setup_config stored inp oracle).events
    ∧ Ev.raise ∉ (setup_config stored inp oracle).events
    ∧ (pyStrip inp.client_id ≠ "" → pyStrip inp.client_secret ≠ "" →
        ∃ c, (setup_config stored inp oracle).ret = some c
          ∧ (setup_config stored inp oracle).stored = some (store_configs [c])) := by
  rcases hfail with h | ⟨s, hs, hne, hl⟩
  · subst h
    refine ⟨rfl, ?_, ?_, ?_, ?_⟩
    · intro s hs
      cases hs
    · simp only [setup_config, get_stored_configs]
      split
      · split <;> simp
      · simp_all
    · simp only [setup_config, get_stored_configs]
      split
      · split <;> simp
      · simp_all
    · intro hid hsec
      exact ⟨mkConfig (strippedOr inp.name "default") (pyStrip inp.client_id)
          (pyStrip inp.client_secret) (strippedOr inp.region DEFAULT_REGION),
        by simp [setup_config, get_stored_configs, hid, hsec],
        by simp [setup_config, get_stored_configs, hid, hsec]⟩
  · subst hs
    have hgs : get_stored_configs (some s) =
        (["Error parsing stored config: invalid JSON"], []) := by
      simp [get_stored_configs, hne, hl]
    refine ⟨by rw [hgs], ?_, ?_, ?_, ?_⟩
    · intro s0 h0
      cases h0
      rw [hgs]
    · simp only [setup_config, hgs]
      split
      · split <;> simp
      · simp_all
    · simp only [setup_config, hgs]
      split
      · split <;> simp
      · simp_all
    · intro hid hsec
      exact ⟨mkConfig (strippedOr inp.name "default") (pyStrip inp.client_id)
          (pyStrip inp.client_secret) (strippedOr inp.region DEFAULT_REGION),
        by simp [setup_config, hgs, hid, hsec],
        by simp [setup_config, hgs, hid, hsec]⟩

/-- Witness for C2 at a concrete corrupt stored value and concrete
non-empty credentials. -/
theorem persistence_failure_enters_setup_witness :
    (get_stored_configs (some "corrupt,")).2 = []
    ∧ ∃ c, (setup_config (some "corrupt,") ⟨"default", "", "X", "Y"⟩ (fun _ => "")).ret = some c
        ∧ (setup_config (some "corrupt,") ⟨"default", "", "X", "Y"⟩ (fun _ => "")).stored =
            some (store_configs [c]) := by
  have h := persistence_failure_enters_setup (some "corrupt,")
    ⟨"default", "", "X", "Y"⟩ (fun _ => "")
    (Or.inr ⟨"corrupt,", rfl, by decide, by rfl⟩)
  exact ⟨h.1, h.2.2.2.2 (by decide) (by decide)⟩

/-- C7: a configuration created by the setup flow with name "default",
client id "X", client secret "Y" and region "R" is afterwards retrievable
through the list operation `get_stored_configs`, with all four fields
unchanged. -/
theorem setup_config_roundtrip :
    ∃ c s,
      (setup_config none ⟨"default", "R", "X", "Y"⟩ (fun _ => "")).ret = some c
      ∧ (setup_config none ⟨"default", "R", "X", "Y"⟩ (fun _ => "")).stored = some s
      ∧ (get_stored_configs (some s)).2 = [c]
      ∧ c.getStr? "name" = some "default"
      ∧ c.getStr? "CLIENT_ID" = some "X"
      ∧ c.getStr? "CLIENT_SECRET" = some "Y"
      ∧ c.getStr? "GENESYS_CLOUD_REGION" = some "R" :=
  ⟨mkConfig "default" "X" "Y" "R",
   store_configs [mkConfig "default" "X" "Y" "R"],
   rfl, rfl, rfl, rfl, rfl, rfl, rfl⟩

/-- C9: the edit operation replaces only the configuration at the first
position whose name matches the selected name — the list handed to the
store keeps its length, the matched position holds the edited entry, and
every other position is unchanged — and when no stored configuration
matches the selected name it returns null and leaves the keyring untouched. -/
theorem edit_config_frame (stored : Option String) (sel : List String → String)
    (inp : Inputs) (configs : List Json) (selected : String)
    (hconfigs : (get_stored_configs stored).2 = configs)
    (hsel : sel (configs.map (fun c => c.getStr "name" "")) = selected) :
    (∀ i cfg updated,
      configs.findIdx? (fun c => c.getStr? "name" == some selected) = some i →
      configs[i]? = some cfg →
      (prompt_config_data_edit cfg inp).2 = some updated →
      (edit_config stored sel inp).ret = some updated
      ∧ (edit_config stored sel inp).stored =
          some (store_configs (configs.set i updated))
      ∧ (configs.set i updated).length = configs.length
      ∧ (∀ j, j ≠ i → (configs.set i updated)[j]? = configs[j]?)
      ∧ (configs.set i updated)[i]? = some updated)
    ∧ (configs ≠ [] →
      configs.findIdx? (fun c => c.getStr? "name" == some selected) = none →
      (edit_config stored sel inp).ret = none
      ∧ (edit_config stored sel inp).stored = stored) := by
  constructor
  · intro i cfg updated hidx hget hedit
    have hne : configs ≠ [] := by
      intro h
      rw [h] at hidx
      simp [List.findIdx?_nil] at hidx
    have hisEmpty : configs.isEmpty = false := by
      cases configs with
      | nil => exact absurd rfl hne
      | cons a l => rfl
    obtain ⟨hlt, -⟩ := List.getElem?_eq_some.mp hget
    refine ⟨?_, ?_, List.length_set configs i updated, ?_, ?_⟩
    · simp only [edit_config, hconfigs, hsel, hisEmpty, hidx, hget, hedit,
        Bool.false_eq_true, if_false]
    · simp only [edit_config, hconfigs, hsel, hisEmpty, hidx, hget, hedit,
        Bool.false_eq_true, if_false]
    · intro j hj
      exact List.getElem?_set_ne (Ne.symm hj)
    · rw [List.getElem?_set]
      simp [hlt]
  · intro hne hidx
    have hisEmpty : configs.isEmpty = false := by
      cases configs with
      | nil => exact absurd rfl hne
      | cons a l => rfl
    constructor <;>
      simp only [edit_config, hconfigs, hsel, hisEmpty, hidx,
        Bool.false_eq_true, if_false]

set_option maxRecDepth 4096 in
/-- Witness for C9, editing the second of two concrete configurations with
all-blank answers (every field kept). -/
theorem edit_config_frame_witness :
    (edit_config (some (store_configs [mkConfig "alpha" "i" "s" "r", mkConfig "beta" "i" "s" "r"]))
        (fun _ => "beta") ⟨"", "", "", ""⟩).ret = some (mkConfig "beta" "i" "s" "r")
    ∧ (edit_config (some (store_configs [mkConfig "alpha" "i" "s" "r", mkConfig "beta" "i" "s" "r"]))
        (fun _ => "beta") ⟨"", "", "", ""⟩).stored =
        some (store_configs ([mkConfig "alpha" "i" "s" "r", mkConfig "beta" "i" "s" "r"].set 1
          (mkConfig "beta" "i" "s" "r"))) := by
  have h := (edit_config_frame
      (some (store_configs [mkConfig "alpha" "i" "s" "r", mkConfig "beta" "i" "s" "r"]))
      (fun _ => "beta") ⟨"", "", "", ""⟩
      [mkConfig "alpha" "i" "s" "r", mkConfig "beta" "i" "s" "r"] "beta"
      (by rfl) (by rfl)).1 1 (mkConfig "beta" "i" "s" "r") (mkConfig "beta" "i" "s" "r")
      (by rfl) (by rfl) (by rfl)
  exact ⟨h.1, h.2.1⟩

/-- C3: in every user-id batch, every id gets its own GET (an HTTP error on
one id never stops the iteration), an erroring id produces its inline
failure line, and `process_users` never raises; in particular on the batch
[A, B] with A failing and B succeeding the trace is the failure line for A
followed by the fetch of B and its success line. -/
theorem process_users_partial_failure (http : String → Except Unit Json)
    (region A B : String) (u : Json)
    (hA : http s!"https://api.{region}/api/v2/users/{A}" = .error ())
    (hB : http s!"https://api.{region}/api/v2/users/{B}" = .ok u) :
    (∀ ids uid, uid ∈ ids →
       Ev.httpGet s!"https://api.{region}/api/v2/users/{uid}"
         ∈ (process_users http ids region).1)
    ∧ (∀ ids uid, uid ∈ ids →
       http s!"https://api.{region}/api/v2/users/{uid}" = .error () →
       Ev.print ("Failed to fetch details for user " ++ uid)
         ∈ (process_users http ids region).1)
    ∧ (∀ ids, (process_users http ids region).2 = false)
    ∧ (process_users http [A, B] region).1 =
        [Ev.print "Getting User(s)",
         Ev.httpGet s!"https://api.{region}/api/v2/users/{A}",
         Ev.print ("Failed to fetch details for user " ++ A), Ev.sleep,
         Ev.httpGet s!"https://api.{region}/api/v2/users/{B}",
         Ev.print (pyShow (u.lookup "name") ++ " (" ++ pyShow (u.lookup "email") ++ ")"),
         Ev.sleep] := by
  refine ⟨?_, ?_, ?_, ?_⟩
  · intro ids uid hm
    simp only [process_users, List.mem_cons]
    right
    rw [List.mem_flatMap]
    refine ⟨uid, hm, ?_⟩
    simp [fetch_user_details]
  · intro ids uid hm herr
    simp only [process_users, List.mem_cons]
    right
    rw [List.mem_flatMap]
    refine ⟨uid, hm, ?_⟩
    simp [fetch_user_details, herr]
  · intro ids
    rfl
  · simp [process_users, fetch_user_details, hA, hB]

/-- Witness for C3 on the concrete batch where the first id fails with an
HTTP error and the second succeeds. -/
theorem process_users_partial_failure_witness :
    (process_users
      (fun url => if url = "https://api.r/api/v2/users/a1" then Except.error ()
        else Except.ok (Json.obj [("name", Json.str "Bob"), ("email", Json.str "bob@x")]))
      ["a1", "b2"] "r").1 =
    [Ev.print "Getting User(s)",
     Ev.httpGet "https://api.r/api/v2/users/a1",
     Ev.print "Failed to fetch details for user a1", Ev.sleep,
     Ev.httpGet "https://api.r/api/v2/users/b2",
     Ev.print "Bob (bob@x)", Ev.sleep] := by
  have h := process_users_partial_failure
    (fun url => if url = "https://api.r/api/v2/users/a1" then Except.error ()
      else Except.ok (Json.obj [("name", Json.str "Bob"), ("email", Json.str "bob@x")]))
    "r" "a1" "b2" (Json.obj [("name", Json.str "Bob"), ("email", Json.str "bob@x")])
    (by rfl) (by rfl)
  exact h.2.2.2

/-- Flattening of the interpolated queue-search URL: the page-size constant
rendered into the string literal. -/
theorem queues_url_eq (search_text region : String) :
    (s!"https://api.{region}/api/v2/routing/queues?pageSize={PAGE_SIZE}&name=*{search_text}*" : String) =
    s!"https://api.{region}/api/v2/routing/queues?pageSize=100&name=*{search_text}*" := by
  have h100 : (toString PAGE_SIZE : String) = "100" := rfl
  have hstr : ∀ s : String, toString s = s := fun _ => rfl
  simp only [hstr, h100]
  congr 2
  rw [String.append_assoc ("https://api." ++ region) "/api/v2/routing/queues?pageSize=" "100",
    String.append_assoc ("https://api." ++ region)
      ("/api/v2/routing/queues?pageSize=" ++ "100") "&name=*"]
  rfl

/-- Filtering the network events out of a run of printed lines gives
nothing. -/
theorem filter_network_of_prints (l : List Ev) (h : ∀ e ∈ l, isPrintEv e) :
    l.filter isNetworkEv = [] := by
  induction l with
  | nil => rfl
  | cons a t ih =>
    have ha := h a (List.mem_cons_self a t)
    have hne : isNetworkEv a = false := by
      cases a <;> simp_all [isPrintEv, isNetworkEv]
    rw [List.filter_cons, hne]
    simp only [Bool.false_eq_true, if_false]
    exact ih (fun e he => h e (List.mem_cons_of_mem a he))

/-- C5: for every search text, the queue-by-name search issues exactly one
GET — to the wildcard queues URL with page size 100 carrying the text — and
prints one line per entity of the entities list of the response, in the
order received, after the header line. -/
theorem search_queues_spec (http : String → Except Unit Json)
    (search_text region : String) (d : Json)
    (hres : http s!"https://api.{region}/api/v2/routing/queues?pageSize=100&name=*{search_text}*" = .ok d) :
    (search_queues http search_text region).1 =
      Ev.print "Finding Queue(s)" ::
      Ev.httpGet s!"https://api.{region}/api/v2/routing/queues?pageSize=100&name=*{search_text}*" ::
      (jsonList (d.lookup "entities")).map (fun q =>
        Ev.print (pyShow (q.lookup "name") ++ ", " ++ pyShow (q.lookup "id")))
    ∧ (search_queues http search_text region).1.filter isNetworkEv =
      [Ev.httpGet s!"https://api.{region}/api/v2/routing/queues?pageSize=100&name=*{search_text}*"] := by
  have h1 : search_queue_details http search_text region =
      ([Ev.httpGet s!"https://api.{region}/api/v2/routing/queues?pageSize=100&name=*{search_text}*"],
       Except.ok d) := by
    simp only [search_queue_details]
    rw [queues_url_eq, hres]
  have htrace : (search_queues http search_text region).1 =
      Ev.print "Finding Queue(s)" ::
      Ev.httpGet s!"https://api.{region}/api/v2/routing/queues?pageSize=100&name=*{search_text}*" ::
      (jsonList (d.lookup "entities")).map (fun q =>
        Ev.print (pyShow (q.lookup "name") ++ ", " ++ pyShow (q.lookup "id"))) := by
    simp [search_queues, h1]
  refine ⟨htrace, ?_⟩
  rw [htrace]
  rw [List.filter_cons, List.filter_cons]
  have hp : List.filter isNetworkEv ((jsonList (d.lookup "entities")).map (fun q =>
      Ev.print (pyShow (q.lookup "name") ++ ", " ++ pyShow (q.lookup "id")))) = [] := by
    apply filter_network_of_prints
    intro e he
    obtain ⟨q, -, hq⟩ := List.mem_map.mp he
    rw [← hq]
    rfl
  rw [hp]
  rfl

/-- Witness for C5 on a concrete response with two entities. -/
theorem search_queues_spec_witness :
    (search_queues
      (fun url =>
        if url = "https://api.usw2.pure.cloud/api/v2/routing/queues?pageSize=100&name=*Sales*"
        then Except.ok (Json.obj [("entities", Json.arr
          [Json.obj [("name", Json.str "Sales A"), ("id", Json.str "q1")],
           Json.obj [("name", Json.str "Sales B"), ("id", Json.str "q2")]])])
        else Except.error ())
      "Sales" "usw2.pure.cloud").1 =
    [Ev.print "Finding Queue(s)",
     Ev.httpGet "https://api.usw2.pure.cloud/api/v2/routing/queues?pageSize=100&name=*Sales*",
     Ev.print "Sales A, q1", Ev.print "Sales B, q2"] := by
  have h := search_queues_spec
    (fun url =>
      if url = "https://api.usw2.pure.cloud/api/v2/routing/queues?pageSize=100&name=*Sales*"
      then Except.ok (Json.obj [("entities", Json.arr
        [Json.obj [("name", Json.str "Sales A"), ("id", Json.str "q1")],
         Json.obj [("name", Json.str "Sales B"), ("id", Json.str "q2")]])])
      else Except.error ())
    "Sales" "usw2.pure.cloud"
    (Json.obj [("entities", Json.arr
      [Json.obj [("name", Json.str "Sales A"), ("id", Json.str "q1")],
       Json.obj [("name", Json.str "Sales B"), ("id", Json.str "q2")]])])
    (by rfl)
  exact h.1

/-- C6: interaction lookup prints a header line containing the id, then one
line per participant with its purpose and name followed by that
participant's attribute pairs, then prompts for the copy confirmation and
reads one key; the clipboard receives the analytics deep-link URL exactly
when the key read is not "n". -/
theorem process_interaction_spec (http : String → Except Unit Json)
    (key interaction_id region : String) (d : Json)
    (hres : http s!"https://api.{region}/api/v2/conversations/{interaction_id}" = .ok d) :
    (process_interaction http key interaction_id region).1 =
      [Ev.httpGet s!"https://api.{region}/api/v2/conversations/{interaction_id}",
       Ev.print "#######################################################",
       Ev.print ("#  Interaction " ++ interaction_id),
       Ev.print "#######################################################",
       Ev.print ("Start Time: " ++ d.getShow "startTime" "??")]
      ++ (jsonList (d.lookup "participants")).flatMap (fun p =>
           Ev.print (p.getShow "purpose" "UNK" ++ " â€” " ++ p.getShow "name" "UNK") ::
           (jsonPairs (p.lookup "attributes")).map (fun kv =>
             Ev.print (kv.1 ++ ": " ++ pyShow (some kv.2))))
      ++ [Ev.print "Copy Conversation URL? (Y/n)", Ev.print "", Ev.readKey]
      ++ (if key ≠ "n" then
            [Ev.clipboard
              s!"https://apps.{region}/directory/#/analytics/interactions/{interaction_id}/admin/details"]
          else [])
    ∧ (Ev.clipboard
         s!"https://apps.{region}/directory/#/analytics/interactions/{interaction_id}/admin/details"
         ∈ (process_interaction http key interaction_id region).1 ↔ key ≠ "n")
    ∧ (process_interaction http key interaction_id region).2 = false := by
  have htrace : (process_interaction http key interaction_id region).1 =
      [Ev.httpGet s!"https://api.{region}/api/v2/conversations/{interaction_id}",
       Ev.print "#######################################################",
       Ev.print ("#  Interaction " ++ interaction_id),
       Ev.print "#######################################################",
       Ev.print ("Start Time: " ++ d.getShow "startTime" "??")]
      ++ (jsonList (d.lookup "participants")).flatMap (fun p =>
           Ev.print (p.getShow "purpose" "UNK" ++ " â€” " ++ p.getShow "name" "UNK") ::
           (jsonPairs (p.lookup "attributes")).map (fun kv =>
             Ev.print (kv.1 ++ ": " ++ pyShow (some kv.2))))
      ++ [Ev.print "Copy Conversation URL? (Y/n)", Ev.print "", Ev.readKey]
      ++ (if key ≠ "n" then
            [Ev.clipboard
              s!"https://apps.{region}/directory/#/analytics/interactions/{interaction_id}/admin/details"]
          else []) := by
    simp [process_interaction, fetch_interaction, hres]
  refine ⟨htrace, ?_, ?_⟩
  · rw [htrace]
    constructor
    · intro hmem
      by_cases hk : key = "n"
      · rw [hk] at hmem
        simp at hmem
      · exact hk
    · intro hk
      simp [hk]
  · simp [process_interaction, fetch_interaction, hres]

/-- Witness for C6 at a concrete interaction with one participant, one
attribute pair and an affirmative keypress. -/
theorem process_interaction_spec_witness :
    (process_interaction
      (fun url => if url = "https://api.r/api/v2/conversations/abc-123"
        then Except.ok (Json.obj
          [("startTime", Json.str "2020"),
           ("participants", Json.arr
             [Json.obj [("purpose", Json.str "agent"), ("name", Json.str "Ann"),
                        ("attributes", Json.obj [("k", Json.str "v")])]])])
        else Except.error ())
      "y" "abc-123" "r").1 =
    [Ev.httpGet "https://api.r/api/v2/conversations/abc-123",
     Ev.print "#######################################################",
     Ev.print "#  Interaction abc-123",
     Ev.print "#######################################################",
     Ev.print "Start Time: 2020",
     Ev.print "agent â€” Ann",
     Ev.print "k: v",
     Ev.print "Copy Conversation URL? (Y/n)", Ev.print "", Ev.readKey,
     Ev.clipboard "https://apps.r/directory/#/analytics/interactions/abc-123/admin/details"] := by
  have h := process_interaction_spec
    (fun url => if url = "https://api.r/api/v2/conversations/abc-123"
      then Except.ok (Json.obj
        [("startTime", Json.str "2020"),
         ("participants", Json.arr
           [Json.obj [("purpose", Json.str "agent"), ("name", Json.str "Ann"),
                      ("attributes", Json.obj [("k", Json.str "v")])]])])
      else Except.error ())
    "y" "abc-123" "r"
    (Json.obj
      [("startTime", Json.str "2020"),
       ("participants", Json.arr
         [Json.obj [("purpose", Json.str "agent"), ("name", Json.str "Ann"),
                    ("attributes", Json.obj [("k", Json.str "v")])]])])
    (by rfl)
  rw [h.1]
  rfl

/-- C8: the token exchange returns the access_token field of the JSON body
of a 2xx response — null when the field is absent — and a non-2xx status
raises an HTTP error that propagates uncaught: reached from `main`, the run
ends at the raised error with no lookup performed. -/
theorem get_access_token_spec (config : Json) (post : String → Except Unit Json)
    (region url : String)
    (hregion : config.getStr "GENESYS_CLOUD_REGION" DEFAULT_REGION = region)
    (hurl : url = s!"https://login.{region}/oauth/token") :
    (∀ body, post url = .ok body →
        (get_access_token config post).2 = .ok (body.lookup "access_token")
        ∧ (body.lookup "access_token" = none →
            (get_access_token config post).2 = .ok none))
    ∧ (∀ e, post url = .error e →
        get_access_token config post = ([Ev.httpPost url], .error e))
    ∧ (∀ args w o, args.new_config = false → args.edit_config = false →
        args.org = some o → o ≠ "" →
        (get_stored_configs w.stored).2.find?
          (fun c => c.getStr? "name" == some o) = some config →
        w.httpPost = post → post url = .error () →
        main args w = (get_stored_configs w.stored).1.map Ev.print ++
          [Ev.httpPost url, Ev.raise]) := by
  subst hurl
  refine ⟨?_, ?_, ?_⟩
  · intro body hok
    constructor
    · simp [get_access_token, Except.map, hregion, hok]
    · intro habs
      simp [get_access_token, Except.map, hregion, hok, habs]
  · intro e herr
    simp [get_access_token, Except.map, hregion, herr]
  · intro args w o hnew hedit horg hne hfind hpost herr
    have htruthy : truthyS args.org = true := by
      rw [horg]
      simp [truthyS, hne]
    have hgetD : args.org.getD "" = o := by
      rw [horg]
      rfl
    simp only [main, hnew, hedit, Bool.false_eq_true, if_false, htruthy, if_true,
      hgetD, hfind, mainRest, get_access_token, hregion, hpost, herr, Except.map]
    simp

/-- Witness for C8: a concrete failing token exchange reached from `main`
with a matching --org configuration. -/
theorem get_access_token_spec_witness :
    main
      { org := some "acme" }
      { stored := some (store_configs [mkConfig "acme" "i" "s" "r"]),
        http := fun _ => Except.error (),
        httpPost := fun _ => Except.error (),
        chooseConfig := fun _ => "",
        setupInputs := ⟨"", "", "", ""⟩,
        kindSel := none,
        searchRaw := "",
        key := "" } =
    [Ev.httpPost "https://login.r/oauth/token", Ev.raise] := by
  have h := (get_access_token_spec (mkConfig "acme" "i" "s" "r")
    (fun _ => Except.error ()) "r" "https://login.r/oauth/token"
    (by rfl) (by rfl)).2.2
    { org := some "acme" }
    { stored := some (store_configs [mkConfig "acme" "i" "s" "r"]),
      http := fun _ => Except.error (),
      httpPost := fun _ => Except.error (),
      chooseConfig := fun _ => "",
      setupInputs := ⟨"", "", "", ""⟩,
      kindSel := none,
      searchRaw := "",
      key := "" }
    "acme" rfl rfl rfl (by decide) (by rfl) rfl rfl
  rw [h]
  rfl

/-- C4: with --org naming no stored configuration while the stored list is
non-empty, the process prints the not-found message and exits with status 1,
and its whole trace contains no network request of either kind. -/
theorem org_not_found_exits (args : Args) (w : World) (o : String)
    (hnew : args.new_config = false) (hedit : args.edit_config = false)
    (horg : args.org = some o) (hne : o ≠ "")
    (hnonempty : (get_stored_configs w.stored).2 ≠ [])
    (hmiss : (get_stored_configs w.stored).2.find?
        (fun c => c.getStr? "name" == some o) = none) :
    main args w = (get_stored_configs w.stored).1.map Ev.print ++
      [Ev.print ("Configuration \x27" ++ o ++ "\x27 not found."), Ev.exitCode 1]
    ∧ (main args w).filter isNetworkEv = [] := by
  have htruthy : truthyS args.org = true := by
    rw [horg]
    simp [truthyS, hne]
  have hgetD : args.org.getD "" = o := by
    rw [horg]
    rfl
  have hmain : main args w = (get_stored_configs w.stored).1.map Ev.print ++
      [Ev.print ("Configuration \x27" ++ o ++ "\x27 not found."), Ev.exitCode 1] := by
    simp only [main, hnew, hedit, Bool.false_eq_true, if_false, htruthy, if_true,
      hgetD, hmiss]
  refine ⟨hmain, ?_⟩
  rw [hmain, List.filter_append]
  have h1 : ((get_stored_configs w.stored).1.map Ev.print).filter isNetworkEv = [] := by
    apply filter_network_of_prints
    intro e he
    obtain ⟨s, -, hs⟩ := List.mem_map.mp he
    rw [← hs]
    rfl
  rw [h1]
  rfl

/-- Witness for C4: one stored configuration named "alpha", queried with
--org "acme". -/
theorem org_not_found_exits_witness :
    main
      { org := some "acme" }
      { stored := some (store_configs [mkConfig "alpha" "i" "s" "r"]),
        http := fun _ => Except.error (),
        httpPost := fun _ => Except.error (),
        chooseConfig := fun _ => "",
        setupInputs := ⟨"", "", "", ""⟩,
        kindSel := none,
        searchRaw := "",
        key := "" } =
    [Ev.print "Configuration \x27acme\x27 not found.", Ev.exitCode 1] := by
  have h := org_not_found_exits
    { org := some "acme" }
    { stored := some (store_configs [mkConfig "alpha" "i" "s" "r"]),
      http := fun _ => Except.error (),
      httpPost := fun _ => Except.error (),
      chooseConfig := fun _ => "",
      setupInputs := ⟨"", "", "", ""⟩,
      kindSel := none,
      searchRaw := "",
      key := "" }
    "acme" rfl rfl rfl (by decide)
    (by
      show (get_stored_configs (some (store_configs [mkConfig "alpha" "i" "s" "r"]))).2 ≠ []
      intro hc
      rw [show (get_stored_configs (some (store_configs [mkConfig "alpha" "i" "s" "r"]))).2 =
        [mkConfig "alpha" "i" "s" "r"] from rfl] at hc
      cases hc)
    (by rfl)
  rw [h.1]
  rfl

/-- C10: when the interactive selector runs and the user enters an empty
search value, the name-based kinds and the interaction kind store the empty
string, the dispatch guards of `main` see a falsy value and no lookup of any
sort is performed — after the token exchange the trace holds only the kind
prompt — while the id-based kinds wrap the empty string in a truthy
one-element list, so a fetch with an empty id is attempted. -/
theorem empty_search_value_guards (args : Args) (w : World) (config : Json)
    (tok : Json) (region url : String)
    (hqn : args.queue_name = none) (hun : args.user_name = none)
    (hqi : args.queue_id = none) (hui : args.user_id = none)
    (hint : args.interaction = none)
    (hregion : config.getStr "GENESYS_CLOUD_REGION" DEFAULT_REGION = region)
    (hurl : url = s!"https://login.{region}/oauth/token")
    (htok : w.httpPost url = .ok tok)
    (hempty : pyStrip w.searchRaw = "") :
    ((w.kindSel = some QUERY_USERNAME ∨ w.kindSel = some QUERY_QUEUENAME ∨
      w.kindSel = some QUERY_INTERACTION) →
      mainRest args w config = [Ev.httpPost url, Ev.promptList search_types])
    ∧ (w.kindSel = some QUERY_USERID →
      Ev.httpGet s!"https://api.{region}/api/v2/users/" ∈ mainRest args w config)
    ∧ (w.kindSel = some QUERY_QUEUEID →
      Ev.httpGet s!"https://api.{region}/api/v2/routing/queues/" ∈ mainRest args w config) := by
  subst hurl
  have hstr : ∀ s : String, toString s = s := fun _ => rfl
  simp only [hstr] at htok
  refine ⟨?_, ?_, ?_⟩
  · intro hk
    rcases hk with hk | hk | hk <;>
      simp [mainRest, get_access_token, Except.map, hregion, htok,
        prompt_user_for_query, hk, hempty, hqn, hun, hqi, hui, hint,
        truthyS, truthyL, runBlocks, hstr,
        QUERY_USERID, QUERY_USERNAME, QUERY_QUEUEID, QUERY_QUEUENAME, QUERY_INTERACTION]
  · intro hk
    simp [mainRest, get_access_token, Except.map, hregion, htok,
      prompt_user_for_query, hk, hempty, hqn, hun, hqi, hui, hint,
      truthyS, truthyL, runBlocks, process_users, fetch_user_details,
      QUERY_USERID, QUERY_USERNAME, QUERY_QUEUEID, QUERY_QUEUENAME, QUERY_INTERACTION,
      hstr, String.append_empty]
  · intro hk
    simp [mainRest, get_access_token, Except.map, hregion, htok,
      prompt_user_for_query, hk, hempty, hqn, hun, hqi, hui, hint,
      truthyS, truthyL, runBlocks, process_queues, fetch_queue_details,
      QUERY_USERID, QUERY_USERNAME, QUERY_QUEUEID, QUERY_QUEUENAME, QUERY_INTERACTION,
      hstr, String.append_empty]

/-- Witness for C10: the user-name kind with an empty value performs no
lookup, and the user-id kind with an empty value issues the GET with an
empty id. -/
theorem empty_search_value_guards_witness :
    mainRest {}
      { stored := none, http := fun _ => Except.error (),
        httpPost := fun _ => Except.ok (Json.obj []),
        chooseConfig := fun _ => "", setupInputs := ⟨"", "", "", ""⟩,
        kindSel := some QUERY_USERNAME, searchRaw := "", key := "" }
      (mkConfig "o" "i" "s" "r") =
      [Ev.httpPost "https://login.r/oauth/token", Ev.promptList search_types]
    ∧ Ev.httpGet "https://api.r/api/v2/users/" ∈
      mainRest {}
        { stored := none, http := fun _ => Except.error (),
          httpPost := fun _ => Except.ok (Json.obj []),
          chooseConfig := fun _ => "", setupInputs := ⟨"", "", "", ""⟩,
          kindSel := some QUERY_USERID, searchRaw := "", key := "" }
        (mkConfig "o" "i" "s" "r") := by
  constructor
  · have h := empty_search_value_guards {}
      { stored := none, http := fun _ => Except.error (),
        httpPost := fun _ => Except.ok (Json.obj []),
        chooseConfig := fun _ => "", setupInputs := ⟨"", "", "", ""⟩,
        kindSel := some QUERY_USERNAME, searchRaw := "", key := "" }
      (mkConfig "o" "i" "s" "r") (Json.obj []) "r" "https://login.r/oauth/token"
      rfl rfl rfl rfl rfl (by rfl) (by rfl) (by rfl) (by rfl)
    exact h.1 (Or.inl rfl)
  · have h := empty_search_value_guards {}
      { stored := none, http := fun _ => Except.error (),
        httpPost := fun _ => Except.ok (Json.obj []),
        chooseConfig := fun _ => "", setupInputs := ⟨"", "", "", ""⟩,
        kindSel := some QUERY_USERID, searchRaw := "", key := "" }
      (mkConfig "o" "i" "s" "r") (Json.obj []) "r" "https://login.r/oauth/token"
      rfl rfl rfl rfl rfl (by rfl) (by rfl) (by rfl) (by rfl)
    exact h.2.1 rfl

end Theorems

end GCLookup
